import Mathlib

/-!
Verification of the AutoCHAD interaction core (src/autochad.py).

The Python source is a PyQt6 diagram editor.  We embed the interaction
engine shallowly:

* scene coordinates (Python floats) become exact rationals `ℚ`; all the
  arithmetic the verified claims exercise (grid rounding, orthogonal
  snapping, segment projection, label clamping) is exact on the inputs
  considered, so `ℚ` is a faithful model of the float computations there;
* `QGraphicsScene` items are records in an identity-keyed store
  (`List (Nat × ItemData)`); the scene itself is the list of item ids
  currently added to it, so object identity and scene membership are
  separated exactly as in Qt (an item removed from the scene still exists
  and can be re-added by a redo closure);
* the undo/redo closures built by the tools capture only the committed
  item's identity, so they are embedded as a small inductive `HAction`
  with an interpreter `execAction`; a Python exception inside an action is
  `execAction … = none`;
* presentation state (`QPen`) keeps the fields the selection manager
  touches: color, width and dash style.

Rotation of items (`QGraphicsItem.setRotation`, driven by
`QLineF.angle()`, an inexact float arctangent) is presentation-only, is
inspected by no claim, and is omitted from the item records.
-/

/-- A scene point, `QPointF` in the source. Floats are modelled exactly by `ℚ`. -/
@[ext]
structure Point where
  x : ℚ
  y : ℚ
deriving DecidableEq, Repr

/-- The presentation state of an item that `SelectionManager` reads and writes:
`QPen` color (encoded as one number), `widthF`, and whether the style is
`Qt.PenStyle.DashLine`. -/
@[ext]
structure Pen where
  color : Nat
  width : ℚ
  dashed : Bool
deriving DecidableEq, Repr

/-- `GRID_SIZE = 25` from the source. -/
def GRID_SIZE : ℚ := 25

/-- `WALL_THICKNESS = 24.0` from the source. -/
def WALL_THICKNESS : ℚ := 24

/-- Python's builtin `round` on an exactly represented value: round to the
nearest integer, ties to the even integer. -/
def pyRound (q : ℚ) : ℤ :=
  if q - (⌊q⌋ : ℚ) < 1/2 then ⌊q⌋
  else if 1/2 < q - (⌊q⌋ : ℚ) then ⌊q⌋ + 1
  else if ⌊q⌋ % 2 = 0 then ⌊q⌋ else ⌊q⌋ + 1

/-- One coordinate of `CanvasEventDelegate.snap_position`:
`round(v / GRID_SIZE) * GRID_SIZE`. -/
def snapCoord (v : ℚ) : ℚ :=
  (pyRound (v / GRID_SIZE) : ℚ) * GRID_SIZE

/-- `CanvasEventDelegate.snap_position`: returns `pos` unchanged when snapping
is disabled, otherwise rounds each coordinate to the nearest grid multiple. -/
def CanvasEventDelegate.snap_position (snapEnabled : Bool) (pos : Point) : Point :=
  if !snapEnabled then pos
  else ⟨snapCoord pos.x, snapCoord pos.y⟩

/-- `CanvasEventDelegate.apply_ortho`: identity when the constraint is off or
the origin is missing; otherwise forces the dominant axis (ties horizontal). -/
def CanvasEventDelegate.apply_ortho (orthoActive : Bool) (origin : Option Point)
    (pos : Point) : Point :=
  if !orthoActive then pos
  else
    match origin with
    | none => pos
    | some o =>
      let dx := |pos.x - o.x|
      let dy := |pos.y - o.y|
      if dx ≥ dy then ⟨pos.x, o.y⟩ else ⟨o.x, pos.y⟩

/-- `CanvasEventDelegate.tool_position`: wall-attachment tools receive the raw
scene position, every other tool the grid-snapped one. -/
def CanvasEventDelegate.tool_position (isAttachmentTool snapEnabled : Bool)
    (pos : Point) : Point :=
  if isAttachmentTool then pos
  else CanvasEventDelegate.snap_position snapEnabled pos

/-- The module-level `clamp(value, min_value, max_value)` helper. -/
def clamp (value minValue maxValue : ℚ) : ℚ :=
  max minValue (min maxValue value)

/-- `WallItem.project_point`: parametric projection of `pos` onto the
centerline from `start` to `stop`, with `t` clamped to `[0, 1]`.  The source
guard is `line.length() == 0`, which holds exactly when `dx² + dy² = 0`. -/
def WallItem.project_point (start stop pos : Point) : Point :=
  let dx := stop.x - start.x
  let dy := stop.y - start.y
  if dx * dx + dy * dy = 0 then start
  else
    let t := ((pos.x - start.x) * dx + (pos.y - start.y) * dy) / (dx * dx + dy * dy)
    let t := clamp t 0 1
    ⟨start.x + dx * t, start.y + dy * t⟩

/-- Squared Euclidean distance.  `QLineF.length()` is its square root; the
source only compares such lengths, and squaring is monotone on nonnegatives,
so comparisons of squared distances are a faithful embedding. -/
def distSq (p q : Point) : ℚ :=
  (p.x - q.x) * (p.x - q.x) + (p.y - q.y) * (p.y - q.y)

/-- Python's fixed-point formatting `f"{v:.2f}"` on an exactly represented
nonnegative value: hundredths rounded ties-to-even, printed with exactly two
decimal places. -/
def format2 (v : ℚ) : String :=
  let n := pyRound (v * 100)
  let m := n.natAbs
  let sign := if n < 0 then "-" else ""
  let frac := m % 100
  sign ++ toString (m / 100) ++ "." ++ (if frac < 10 then "0" else "") ++ toString frac

/-- The label text computed by `WallItem.update_geometry` and
`WallItem._update_label`, as a function of the exact centerline length `len`:
the source sets `length = max(1.0, line.length())` and then renders
`f"{length:.2f}"`. -/
def wallLabelText (len : ℚ) : String :=
  format2 (max 1 len)

/-- The statement that `L` is the exact Euclidean length of the segment from
`s` to `t` (what `QLineF.length()` computes with floating sqrt). -/
def IsSegLen (s t : Point) (L : ℚ) : Prop :=
  0 ≤ L ∧ L * L = distSq s t

instance (s t : Point) (L : ℚ) : Decidable (IsSegLen s t L) := by
  unfold IsSegLen; infer_instance

/-- The variant of a scene item (which Python class constructed it). -/
inductive Kind where
  | wall
  | window
  | door
  | line
  | rect
  | circle
  | switch
  | outlet
deriving DecidableEq, Repr

/-- The data of one graphics item: its variant, its defining geometry
(`start`/`end` endpoints for walls, windows, doors and lines; the current
`setPos` position in `a` for attachments, whose glyph geometry is fixed),
and its pen. -/
@[ext]
structure ItemData where
  kind : Kind
  a : Point
  b : Point
  pen : Pen
deriving DecidableEq, Repr

/-- First-match lookup of an item id in the object store. -/
def lookupItem (i : Nat) : List (Nat × ItemData) → Option ItemData
  | [] => none
  | (j, d) :: rest => if j = i then some d else lookupItem i rest

/-- `item.setPen(p)` on the item with identity `i`. -/
def setItemPen (i : Nat) (p : Pen) (store : List (Nat × ItemData)) :
    List (Nat × ItemData) :=
  store.map fun it => if it.1 = i then (it.1, { it.2 with pen := p }) else it

/-- Updating the defining endpoints of item `i` (the
`preview.start/.end := …; preview.update_geometry()` pattern and
`setLine`). -/
def setItemGeom (i : Nat) (s t : Point) (store : List (Nat × ItemData)) :
    List (Nat × ItemData) :=
  store.map fun it => if it.1 = i then (it.1, { it.2 with a := s, b := t }) else it

/-- `item.setPos(p)` for attachment items (stored in field `a`). -/
def setItemPos (i : Nat) (p : Point) (store : List (Nat × ItemData)) :
    List (Nat × ItemData) :=
  store.map fun it => if it.1 = i then (it.1, { it.2 with a := p }) else it

/-- An undo/redo closure pushed by the source.  The creation-commit closures
capture only the committed item's identity; `fail` stands for an action that
raises when executed (the spec's action-replay failure). -/
inductive HAction where
  | removeDeselect (i : Nat)
  | addSelect (i : Nat)
  | fail
deriving DecidableEq, Repr

/-- The whole editor state: the object store (all items ever constructed,
keyed by identity), the list of ids currently added to the `QGraphicsScene`,
the `SelectionManager` fields (`current`, `_previous_pen`) and the
`UndoManager` stacks (`_undo` holds `(undo, redo-or-None)` pairs, `_redo`
holds `(redo, undo)` pairs; list head is the stack top). -/
@[ext]
structure Ed where
  nextId : Nat
  store : List (Nat × ItemData)
  scene : List Nat
  selCurrent : Option Nat
  selPrevPen : Option Pen
  undoStack : List (HAction × Option HAction)
  redoStack : List (HAction × HAction)
deriving DecidableEq, Repr

/-- The highlight pen built in `SelectionManager.select`:
`QPen(QColor(255,120,0))` with `setWidthF(max(2.0, pen.widthF()))`. -/
def highlightPen (p : Pen) : Pen :=
  { color := 0xFF7800, width := max 2 p.width, dashed := false }

/-- `SelectionManager._clear_highlight`: restore the saved pen on the
currently selected item (when both are present), then reset `current` and
`_previous_pen`. -/
def SelectionManager.clear_highlight (e : Ed) : Ed :=
  let restored :=
    match e.selCurrent, e.selPrevPen with
    | some i, some p => { e with store := setItemPen i p e.store }
    | _, _ => e
  { restored with selCurrent := none, selPrevPen := none }

/-- `SelectionManager.select`: clear the old highlight, record the new
current item, save its pen and restyle it with the highlight pen.  Every
modelled item has a pen, so the `hasattr(item, "pen")` guard only fails for
an identity missing from the store, in which case nothing is restyled. -/
def SelectionManager.select (it : Option Nat) (e : Ed) : Ed :=
  let e1 := SelectionManager.clear_highlight e
  match it with
  | none => e1
  | some i =>
    match lookupItem i e1.store with
    | none => { e1 with selCurrent := some i }
    | some d =>
      { e1 with
          selCurrent := some i
          selPrevPen := some d.pen
          store := setItemPen i (highlightPen d.pen) e1.store }

/-- Executing one undo/redo closure.  `none` models the closure raising. -/
def execAction : HAction → Ed → Option Ed
  | HAction.removeDeselect i, e =>
    let e1 := if e.selCurrent = some i then SelectionManager.select none e else e
    some { e1 with scene := e1.scene.erase i }
  | HAction.addSelect i, e =>
    some (SelectionManager.select (some i) { e with scene := e.scene ++ [i] })
  | HAction.fail, _ => none

/-- `UndoManager.push` (branch with redo support): append the pair to the
undo stack and clear the redo stack. -/
def UndoManager.push (u : HAction) (r : Option HAction) (e : Ed) : Ed :=
  { e with undoStack := (u, r) :: e.undoStack, redoStack := [] }

/-- `UndoManager.undo`: no-op on an empty stack; otherwise pop `(undo, redo)`,
run `undo`, and append `(redo, undo)` to the redo stack only when `redo` is
present and `undo` did not raise; a raise is caught and printed. -/
def UndoManager.undo (e : Ed) : Ed :=
  match e.undoStack with
  | [] => e
  | (u, r) :: rest =>
    let e1 := { e with undoStack := rest }
    match execAction u e1 with
    | none => e1
    | some e2 =>
      match r with
      | none => e2
      | some ra => { e2 with redoStack := (ra, u) :: e2.redoStack }

/-- `UndoManager.redo`: no-op on an empty redo stack; otherwise pop
`(redo, undo)`, run `redo`, and append `(undo, redo)` back to the undo stack
when it did not raise. -/
def UndoManager.redo (e : Ed) : Ed :=
  match e.redoStack with
  | [] => e
  | (r, u) :: rest =>
    let e1 := { e with redoStack := rest }
    match execAction r e1 with
    | none => e1
    | some e2 => { e2 with undoStack := (u, some r) :: e2.undoStack }

/-- The gesture state shared by the drag tools (`WallTool`, `WindowTool`,
`DoorTool`, `LineTool`, …): the recorded anchor `_start` and the identity of
the preview item currently owned by the tool. -/
@[ext]
structure ToolGesture where
  start : Option Point
  preview : Option Nat
deriving DecidableEq, Repr

/-- `CanvasTool.cancel`: remove the preview item from the scene (if any) and
drop the reference.  The anchor `_start` is not reset by the source. -/
def CanvasTool.cancel (ts : ToolGesture) (e : Ed) : ToolGesture × Ed :=
  match ts.preview with
  | none => (ts, e)
  | some pid => ({ ts with preview := none }, { e with scene := e.scene.erase pid })

/-- The wall pen `QPen(QColor(0, 90, 180), 2)`. -/
def wallPen : Pen := { color := 0x005AB4, width := 2, dashed := false }

/-- The line-preview pen `QPen(QColor(0, 120, 215))` with
`Qt.PenStyle.DashLine`. -/
def linePreviewPen : Pen := { color := 0x0078D7, width := 1, dashed := true }

/-- The committed line pen `QPen(QColor(0, 0, 0), 1.5)`. -/
def lineFinalPen : Pen := { color := 0x000000, width := 3/2, dashed := false }

/-- The attachment pen `QPen(QColor(200, 40, 40), 2)`. -/
def attachmentPen : Pen := { color := 0xC82828, width := 2, dashed := false }

/-- Restyling a preview pen with `Qt.PenStyle.DashLine`. -/
def dashed (p : Pen) : Pen := { p with dashed := true }

/-- `WallTool.on_press`: record the anchor and, when no preview exists yet,
construct a zero-extent `WallItem(pos, pos)` with a dashed pen and add it to
the scene. -/
def WallTool.on_press (pos : Point) (ts : ToolGesture) (e : Ed) : ToolGesture × Ed :=
  let ts1 : ToolGesture := { ts with start := some pos }
  match ts1.preview with
  | some _ => (ts1, e)
  | none =>
    let i := e.nextId
    let d : ItemData := { kind := Kind.wall, a := pos, b := pos, pen := dashed wallPen }
    ({ ts1 with preview := some i },
     { e with nextId := i + 1, store := e.store ++ [(i, d)], scene := e.scene ++ [i] })

/-- `WallTool.on_move`: with an anchor and a `WallItem` preview, update the
preview endpoints to the orthogonally adjusted target. -/
def WallTool.on_move (orthoActive : Bool) (pos : Point) (ts : ToolGesture) (e : Ed) : Ed :=
  match ts.start, ts.preview with
  | some s, some pid =>
    match lookupItem pid e.store with
    | some d =>
      if d.kind = Kind.wall then
        let target := CanvasEventDelegate.apply_ortho orthoActive (some s) pos
        { e with store := setItemGeom pid s target e.store }
      else e
    | none => e
  | _, _ => e

/-- `WallTool.on_release`: construct the committed `WallItem`, add it to the
scene, select it, push the `(remove-and-deselect, re-add-and-reselect)` pair,
and cancel the preview. -/
def WallTool.on_release (orthoActive : Bool) (pos : Point) (ts : ToolGesture) (e : Ed) :
    ToolGesture × Ed :=
  match ts.start with
  | none => (ts, e)
  | some s =>
    let target := CanvasEventDelegate.apply_ortho orthoActive (some s) pos
    let i := e.nextId
    let d : ItemData := { kind := Kind.wall, a := s, b := target, pen := wallPen }
    let e1 := { e with nextId := i + 1, store := e.store ++ [(i, d)], scene := e.scene ++ [i] }
    let e2 := SelectionManager.select (some i) e1
    let e3 := UndoManager.push (HAction.removeDeselect i) (some (HAction.addSelect i)) e2
    CanvasTool.cancel ts e3

/-- `LineTool.on_press`: record the anchor and, when no preview exists yet,
add a default `DimensionLineItem()` (line `(0,0)-(0,0)`) with the dashed blue
preview pen. -/
def LineTool.on_press (pos : Point) (ts : ToolGesture) (e : Ed) : ToolGesture × Ed :=
  let ts1 : ToolGesture := { ts with start := some pos }
  match ts1.preview with
  | some _ => (ts1, e)
  | none =>
    let i := e.nextId
    let d : ItemData := { kind := Kind.line, a := ⟨0, 0⟩, b := ⟨0, 0⟩, pen := linePreviewPen }
    ({ ts1 with preview := some i },
     { e with nextId := i + 1, store := e.store ++ [(i, d)], scene := e.scene ++ [i] })

/-- `LineTool.on_move`: with an anchor and a line preview, `setLine` from the
anchor to the orthogonally adjusted position. -/
def LineTool.on_move (orthoActive : Bool) (pos : Point) (ts : ToolGesture) (e : Ed) : Ed :=
  match ts.start, ts.preview with
  | some s, some pid =>
    match lookupItem pid e.store with
    | some d =>
      if d.kind = Kind.line then
        let adjusted := CanvasEventDelegate.apply_ortho orthoActive (some s) pos
        { e with store := setItemGeom pid s adjusted e.store }
      else e
    | none => e
  | _, _ => e

/-- `LineTool.on_release` (from the `main` variant): construct the committed
`DimensionLineItem`, add it, select it, push **only the undo closure**
(`self.context.undo.push(undo)`, so the redo argument defaults to `None`),
then `finalize` (= `cancel`). -/
def LineTool.on_release (orthoActive : Bool) (pos : Point) (ts : ToolGesture) (e : Ed) :
    ToolGesture × Ed :=
  match ts.start with
  | none => (ts, e)
  | some s =>
    let adjusted := CanvasEventDelegate.apply_ortho orthoActive (some s) pos
    let i := e.nextId
    let d : ItemData := { kind := Kind.line, a := s, b := adjusted, pen := lineFinalPen }
    let e1 := { e with nextId := i + 1, store := e.store ++ [(i, d)], scene := e.scene ++ [i] }
    let e2 := SelectionManager.select (some i) e1
    let e3 := UndoManager.push (HAction.removeDeselect i) none e2
    CanvasTool.cancel ts e3

/-- `CanvasEventDelegate.nearest_wall_projection`: scan the scene for
`WallItem`s, project `pos` onto each centerline, and keep the strictly
nearest one (first wall wins ties); `none` when the scene has no wall.
Distances are compared through their squares. -/
def CanvasEventDelegate.nearest_wall_projection (pos : Point) (e : Ed) :
    Option (Nat × Point) :=
  let best := e.scene.foldl
    (fun (best : Option (Nat × Point × ℚ)) (i : Nat) =>
      match lookupItem i e.store with
      | some d =>
        if d.kind = Kind.wall then
          let projected := WallItem.project_point d.a d.b pos
          let dq := distSq pos projected
          match best with
          | none => some (i, projected, dq)
          | some b => if dq < b.2.2 then some (i, projected, dq) else best
        else best
      | none => best)
    none
  match best with
  | none => none
  | some b => some (b.1, b.2.1)

/-- The gesture state of `WallAttachmentTool` (`SwitchTool`, `OutletTool`):
hover position, the wall last snapped to, and the preview item. -/
@[ext]
structure AttachGesture where
  hoverPos : Option Point
  wallRef : Option Nat
  preview : Option Nat
deriving DecidableEq, Repr

/-- `SwitchTool.build_preview`: a `SwitchItem` restyled with a dashed pen,
at the default position. -/
def switchPreviewData : ItemData :=
  { kind := Kind.switch, a := ⟨0, 0⟩, b := ⟨0, 0⟩, pen := dashed attachmentPen }

/-- `WallAttachmentTool.on_move` (with `SwitchTool.build_preview`): snap to
the nearest wall; on a hit, create the preview on first use, then `setPos` it
to the projected point.  (`setRotation(wall.rotation())` is presentation-only
and omitted.)  No wall: do nothing. -/
def WallAttachmentTool.on_move (pos : Point) (ts : AttachGesture) (e : Ed) :
    AttachGesture × Ed :=
  match CanvasEventDelegate.nearest_wall_projection pos e with
  | none => (ts, e)
  | some hit =>
    let ts1 : AttachGesture := { ts with hoverPos := some hit.2, wallRef := some hit.1 }
    match ts1.preview with
    | none =>
      let pid := e.nextId
      let e1 := { e with
        nextId := pid + 1
        store := e.store ++ [(pid, switchPreviewData)]
        scene := e.scene ++ [pid] }
      ({ ts1 with preview := some pid }, { e1 with store := setItemPos pid hit.2 e1.store })
    | some pid => (ts1, { e with store := setItemPos pid hit.2 e.store })

/-- `WallAttachmentTool.on_press` (with `SwitchTool.build_final`): snap to the
nearest wall; with no hit, report "No wall" and change nothing; on a hit,
build the final `SwitchItem` at the projected point, add it, select it, and
push the `(remove-and-deselect, re-add-and-reselect)` pair.  The source does
**not** cancel the preview here. -/
def WallAttachmentTool.on_press (pos : Point) (ts : AttachGesture) (e : Ed) :
    AttachGesture × Ed :=
  match CanvasEventDelegate.nearest_wall_projection pos e with
  | none => (ts, e)
  | some hit =>
    let i := e.nextId
    let d : ItemData := { kind := Kind.switch, a := hit.2, b := ⟨0, 0⟩, pen := attachmentPen }
    let e1 := { e with nextId := i + 1, store := e.store ++ [(i, d)], scene := e.scene ++ [i] }
    let e2 := SelectionManager.select (some i) e1
    (ts, UndoManager.push (HAction.removeDeselect i) (some (HAction.addSelect i)) e2)

/-- A freshly opened editor: empty scene, nothing selected, empty history. -/
def emptyEd : Ed :=
  { nextId := 0, store := [], scene := [], selCurrent := none, selPrevPen := none,
    undoStack := [], redoStack := [] }

/-- An editor whose only history entry has an undo closure that raises, paired
with a redo closure. -/
def failTopEd : Ed :=
  { emptyEd with undoStack := [(HAction.fail, some (HAction.addSelect 0))] }

/-- C1 (counterexample).  With a raising undo action on top of the undo
stack, `undo()` does NOT leave the entry on top of the undo stack: the popped
entry is dropped, so the stacks are not "as if the pop had never happened". -/
theorem undo_failure_loses_entry_cex :
    (UndoManager.undo failTopEd).undoStack = [] ∧ failTopEd.undoStack ≠ [] := by
  decide

/-- C1 (amended).  If the top undo action raises, the failure is swallowed
(`undo()` still returns a state rather than propagating), the redo stack is
untouched, but the pop completes: the entry is removed from the undo stack. -/
theorem undo_failure_pops_entry (e : Ed) (u : HAction) (r : Option HAction)
    (rest : List (HAction × Option HAction))
    (hf : execAction u { e with undoStack := rest } = none) :
    UndoManager.undo { e with undoStack := (u, r) :: rest } = { e with undoStack := rest } := by
  unfold UndoManager.undo
  simp only
  rw [hf]

/-- Witness for `undo_failure_pops_entry` at the concrete editor `failTopEd`. -/
theorem undo_failure_pops_entry_witness :
    UndoManager.undo { emptyEd with undoStack := [(HAction.fail, some (HAction.addSelect 0))] } =
      { emptyEd with undoStack := [] } :=
  undo_failure_pops_entry emptyEd HAction.fail (some (HAction.addSelect 0)) [] rfl

/-- C5.  `push` clears the redo stack, so after any `undo()` followed by a
`push`, a `redo()` is a no-op: it returns the state (both stacks and the
scene) completely unchanged, executing no action. -/
theorem push_clears_redo_stack (e : Ed) (u : HAction) (r : Option HAction) :
    UndoManager.redo (UndoManager.push u r (UndoManager.undo e)) =
      UndoManager.push u r (UndoManager.undo e) := rfl

/-- The LineTool gesture: press at the (snapped) origin … -/
def c2Press : ToolGesture × Ed :=
  LineTool.on_press ⟨0, 0⟩ { start := none, preview := none } emptyEd

/-- … and release at (50, 0), committing a line. -/
def c2Commit : ToolGesture × Ed :=
  LineTool.on_release false ⟨50, 0⟩ c2Press.1 c2Press.2

/-- C2 (code bug, evaluated at the failing input).  `LineTool.on_release`
pushes its history entry with no redo action (`push(undo)` leaves
`redo = None`), so after undoing the creation, `redo()` is a no-op and the
committed line (identity 1) is never re-added to the scene. -/
theorem line_commit_records_no_redo :
    c2Commit.2.undoStack = [(HAction.removeDeselect 1, none)] ∧
    c2Commit.2.scene = [1] ∧
    (UndoManager.undo c2Commit.2).scene = [] ∧
    (UndoManager.undo c2Commit.2).redoStack = [] ∧
    UndoManager.redo (UndoManager.undo c2Commit.2) = UndoManager.undo c2Commit.2 :=
  ⟨rfl, rfl, rfl, rfl, rfl⟩

/-- An editor holding exactly one wall, with centerline (0,0)–(100,0),
identity 0. -/
def oneWallEd : Ed :=
  { emptyEd with
      nextId := 1
      store := [(0, { kind := Kind.wall, a := ⟨0, 0⟩, b := ⟨100, 0⟩, pen := wallPen })]
      scene := [0] }

/-- The idle attachment-tool gesture state. -/
def attachIdle : AttachGesture := { hoverPos := none, wallRef := none, preview := none }

/-- C4 (counterexample).  A Switch press at (50, 40) — 40 units from the only
wall's centerline — is NOT rejected: the scene changes and a history entry is
pushed. -/
theorem switch_press_far_from_wall_commits_cex :
    (WallAttachmentTool.on_press ⟨50, 40⟩ attachIdle oneWallEd).2.scene ≠ oneWallEd.scene ∧
    (WallAttachmentTool.on_press ⟨50, 40⟩ attachIdle oneWallEd).2.undoStack ≠ [] := by
  decide

/-- C4 (amended).  `nearest_wall_projection` imposes no distance limit, so
the press 40 units from the centerline commits: the switch (identity 1) is
added at the projected point (50, 0), selected, and a two-direction history
entry is pushed; a press is only rejected (state unchanged) when the scene
contains no wall at all. -/
theorem switch_press_no_range_limit :
    (WallAttachmentTool.on_press ⟨50, 40⟩ attachIdle oneWallEd).2.scene = [0, 1] ∧
    (lookupItem 1 (WallAttachmentTool.on_press ⟨50, 40⟩ attachIdle oneWallEd).2.store).map
        (fun d => (d.kind, d.a)) = some (Kind.switch, ⟨50, 0⟩) ∧
    (WallAttachmentTool.on_press ⟨50, 40⟩ attachIdle oneWallEd).2.undoStack =
      [(HAction.removeDeselect 1, some (HAction.addSelect 1))] ∧
    (WallAttachmentTool.on_press ⟨50, 40⟩ attachIdle oneWallEd).1 = attachIdle ∧
    WallAttachmentTool.on_press ⟨50, 40⟩ attachIdle emptyEd = (attachIdle, emptyEd) := by
  refine ⟨rfl, ?_, rfl, rfl, rfl⟩
  norm_num [WallAttachmentTool.on_press, CanvasEventDelegate.nearest_wall_projection,
    oneWallEd, emptyEd, attachIdle, lookupItem, setItemPen, SelectionManager.select,
    SelectionManager.clear_highlight, UndoManager.push, WallItem.project_point, clamp,
    distSq, Point.ext_iff]

/-- The Switch tool hovering over the single wall: `on_move` at (50, 10)
creates the dashed preview (identity 1) and places it on the wall. -/
def c3Move : AttachGesture × Ed :=
  WallAttachmentTool.on_move ⟨50, 10⟩ attachIdle oneWallEd

/-- The fused press-commit of the Switch tool at (50, 10). -/
def c3Press : AttachGesture × Ed :=
  WallAttachmentTool.on_press ⟨50, 10⟩ c3Move.1 c3Move.2

/-- C3 (counterexample).  After the fused press-commit of a wall-attachment
tool, the preview (identity 1) is still referenced by the tool and still in
the scene alongside the committed switch (identity 2):
`WallAttachmentTool.on_press` never cancels the preview. -/
theorem attachment_commit_keeps_preview_cex :
    c3Press.1.preview = some 1 ∧ c3Press.2.scene = [0, 1, 2] :=
  ⟨rfl, rfl⟩

/-- `SelectionManager.select` never changes the scene membership list. -/
theorem select_scene_eq (it : Option Nat) (e : Ed) :
    (SelectionManager.select it e).scene = e.scene := by
  unfold SelectionManager.select SelectionManager.clear_highlight
  cases it <;> dsimp only <;> repeat' split
  all_goals rfl

/-- Erasing `pid` from a duplicate-free list extended with a fresh id leaves
no occurrence of `pid`. -/
theorem not_mem_erase_append_fresh (l : List Nat) (pid nid : Nat)
    (hnd : l.Nodup) (hfresh : nid ∉ l) : pid ∉ (l ++ [nid]).erase pid := by
  by_cases hp : pid = nid
  · subst hp
    rw [List.erase_append_right _ hfresh]
    intro h
    rcases List.mem_append.1 h with h | h
    · exact hfresh h
    · rw [List.erase_cons_head] at h
      exact List.not_mem_nil _ h
  · by_cases hm : pid ∈ l
    · rw [List.erase_append_left _ hm]
      intro h
      rcases List.mem_append.1 h with h | h
      · exact ((List.Nodup.mem_erase_iff hnd).1 h).1 rfl
      · exact hp (List.mem_singleton.1 h)
    · rw [List.erase_append_right _ hm]
      intro h
      rcases List.mem_append.1 h with h | h
      · exact hm h
      · rw [List.erase_cons_tail, List.erase_nil] at h
        · exact hp (List.mem_singleton.1 h)
        · simp [Ne.symm hp]

/-- C3 (amended).  For the drag tools, a successful `on_release` does discard
the preview: the tool drops the reference and the preview id is no longer in
the scene (given the scene invariants that ids are duplicate-free and
`nextId` is fresh).  Wall-attachment tools are the exception recorded in the
counterexample. -/
theorem drag_tool_release_discards_preview (orthoActive : Bool) (pos s : Point)
    (pid : Nat) (ts : ToolGesture) (e : Ed)
    (h1 : ts.start = some s) (h2 : ts.preview = some pid)
    (h3 : e.scene.Nodup) (h4 : e.nextId ∉ e.scene) :
    (WallTool.on_release orthoActive pos ts e).1.preview = none ∧
    pid ∉ (WallTool.on_release orthoActive pos ts e).2.scene ∧
    (LineTool.on_release orthoActive pos ts e).1.preview = none ∧
    pid ∉ (LineTool.on_release orthoActive pos ts e).2.scene := by
  obtain ⟨st, pv⟩ := ts
  simp only at h1 h2
  subst h1; subst h2
  unfold WallTool.on_release LineTool.on_release CanvasTool.cancel
  dsimp only
  rw [UndoManager.push, UndoManager.push, select_scene_eq, select_scene_eq]
  exact ⟨rfl, not_mem_erase_append_fresh _ _ _ h3 h4, rfl,
    not_mem_erase_append_fresh _ _ _ h3 h4⟩

/-- An editor in the middle of a wall gesture: the dashed preview wall
(identity 0) is in the scene. -/
def previewWallEd : Ed :=
  { emptyEd with
      nextId := 1
      store := [(0, { kind := Kind.wall, a := ⟨0, 0⟩, b := ⟨50, 0⟩, pen := dashed wallPen })]
      scene := [0] }

/-- Witness for `drag_tool_release_discards_preview` on a concrete mid-gesture
editor. -/
theorem drag_tool_release_discards_preview_witness :
    (WallTool.on_release false ⟨50, 0⟩ ⟨some ⟨0, 0⟩, some 0⟩ previewWallEd).1.preview = none ∧
    0 ∉ (WallTool.on_release false ⟨50, 0⟩ ⟨some ⟨0, 0⟩, some 0⟩ previewWallEd).2.scene ∧
    (LineTool.on_release false ⟨50, 0⟩ ⟨some ⟨0, 0⟩, some 0⟩ previewWallEd).1.preview = none ∧
    0 ∉ (LineTool.on_release false ⟨50, 0⟩ ⟨some ⟨0, 0⟩, some 0⟩ previewWallEd).2.scene :=
  drag_tool_release_discards_preview false ⟨50, 0⟩ ⟨0, 0⟩ 0 ⟨some ⟨0, 0⟩, some 0⟩
    previewWallEd rfl rfl (by decide) (by decide)

/-- C6 (counterexample).  A degenerate wall (both endpoints equal) has
centerline length 0, but `update_geometry` clamps the length to
`max(1.0, …)` before building the label, so the label reads "1.00" while the
centerline length formats as "0.00". -/
theorem wall_label_clamped_cex :
    IsSegLen ⟨0, 0⟩ ⟨0, 0⟩ 0 ∧ wallLabelText 0 = "1.00" ∧ format2 0 = "0.00" ∧
      wallLabelText 0 ≠ format2 0 := by
  refine ⟨⟨le_refl 0, by norm_num [distSq]⟩, ?_, ?_, ?_⟩
  · show format2 (max 1 0) = "1.00"
    rw [max_eq_left (by norm_num)]
    norm_num [format2, pyRound]
    rfl
  · norm_num [format2, pyRound]
    rfl
  · rw [show wallLabelText 0 = format2 (max 1 0) from rfl, max_eq_left (by norm_num)]
    norm_num [format2, pyRound]
    decide

/-- The Wall gesture of the scenario: the dispatcher snaps the press position
(0, 0) before handing it to the tool … -/
def c6Press : ToolGesture × Ed :=
  WallTool.on_press (CanvasEventDelegate.tool_position false true ⟨0, 0⟩)
    { start := none, preview := none } emptyEd

/-- … and snaps the release position (97, 3) the same way. -/
def c6Commit : ToolGesture × Ed :=
  WallTool.on_release false (CanvasEventDelegate.tool_position false true ⟨97, 3⟩)
    c6Press.1 c6Press.2

/-- C6 (amended).  Whenever the centerline length is at least 1, the wall
label is exactly that length formatted to two decimals (below 1 the clamp of
the counterexample applies); and the scenario holds: with grid size 25, a
Wall gesture pressed at (0, 0) and released at (97, 3) commits wall
identity 1 with snapped endpoints (0, 0) and (100, 0), whose length is 100
and whose label reads "100.00". -/
theorem wall_label_shows_length (s t : Point) (L : ℚ)
    (hL : IsSegLen s t L) (h1 : 1 ≤ L) :
    wallLabelText L = format2 L ∧
    CanvasEventDelegate.tool_position false true ⟨97, 3⟩ = ⟨100, 0⟩ ∧
    (lookupItem 1 c6Commit.2.store).map (fun d => (d.kind, d.a, d.b)) =
      some (Kind.wall, ⟨0, 0⟩, ⟨100, 0⟩) ∧
    c6Commit.2.scene = [1] ∧
    IsSegLen ⟨0, 0⟩ ⟨100, 0⟩ 100 ∧ wallLabelText 100 = "100.00" := by
  refine ⟨?_, ?_, ?_, ?_, ⟨by norm_num, by norm_num [distSq]⟩, ?_⟩
  · rw [show wallLabelText L = format2 (max 1 L) from rfl, max_eq_right h1]
  · norm_num [CanvasEventDelegate.tool_position, CanvasEventDelegate.snap_position,
      snapCoord, pyRound, GRID_SIZE, Point.ext_iff]
  · norm_num [c6Commit, c6Press, WallTool.on_press, WallTool.on_release,
      CanvasEventDelegate.tool_position, CanvasEventDelegate.snap_position,
      CanvasEventDelegate.apply_ortho, snapCoord, pyRound, GRID_SIZE,
      CanvasTool.cancel, UndoManager.push, SelectionManager.select,
      SelectionManager.clear_highlight, lookupItem, setItemPen, emptyEd,
      Point.ext_iff]
  · rfl
  · rw [show wallLabelText 100 = format2 (max 1 100) from rfl,
      max_eq_right (by norm_num)]
    norm_num [format2, pyRound]
    rfl

/-- Witness for `wall_label_shows_length` at the scenario's wall. -/
theorem wall_label_shows_length_witness :
    wallLabelText 100 = format2 100 :=
  (wall_label_shows_length ⟨0, 0⟩ ⟨100, 0⟩ 100
    ⟨by norm_num, by norm_num [distSq]⟩ (by norm_num)).1

/-- C7.  `project_point` always lands on the closed segment: the returned
point is `start + u · (stop - start)` for some clamped `u ∈ [0, 1]`, and a
zero-length segment returns `start` outright (no division by zero). -/
theorem project_point_on_closed_segment (s t p : Point) :
    (∃ u : ℚ, 0 ≤ u ∧ u ≤ 1 ∧
      WallItem.project_point s t p =
        ⟨s.x + (t.x - s.x) * u, s.y + (t.y - s.y) * u⟩) ∧
    WallItem.project_point s s p = s := by
  constructor
  · unfold WallItem.project_point
    dsimp only
    by_cases h : (t.x - s.x) * (t.x - s.x) + (t.y - s.y) * (t.y - s.y) = 0
    · refine ⟨0, le_refl 0, by norm_num, ?_⟩
      rw [if_pos h]
      ext <;> ring
    · refine ⟨clamp (((p.x - s.x) * (t.x - s.x) + (p.y - s.y) * (t.y - s.y)) /
          ((t.x - s.x) * (t.x - s.x) + (t.y - s.y) * (t.y - s.y))) 0 1,
        le_max_left 0 _, max_le (by norm_num) (min_le_left 1 _), ?_⟩
      rw [if_neg h]
  · unfold WallItem.project_point
    rw [if_pos (by ring)]

/-- C8.  `apply_ortho` is the identity when the constraint is off or the
origin is missing; otherwise it keeps the dominant axis, ties going to
horizontal; in particular the Line scenario press (0,0), move (50,60) snaps
to (0, 60). -/
theorem apply_ortho_spec (o p : Point) (origin : Option Point) :
    CanvasEventDelegate.apply_ortho false origin p = p ∧
    CanvasEventDelegate.apply_ortho true none p = p ∧
    (|p.x - o.x| ≥ |p.y - o.y| →
      CanvasEventDelegate.apply_ortho true (some o) p = ⟨p.x, o.y⟩) ∧
    (|p.x - o.x| < |p.y - o.y| →
      CanvasEventDelegate.apply_ortho true (some o) p = ⟨o.x, p.y⟩) ∧
    CanvasEventDelegate.apply_ortho true (some ⟨0, 0⟩) ⟨50, 60⟩ = ⟨0, 60⟩ := by
  refine ⟨rfl, rfl, ?_, ?_, ?_⟩
  · intro h
    unfold CanvasEventDelegate.apply_ortho
    dsimp only
    rw [if_pos h]
    rfl
  · intro h
    unfold CanvasEventDelegate.apply_ortho
    dsimp only
    rw [if_neg (not_le.mpr h)]
    rfl
  · norm_num [CanvasEventDelegate.apply_ortho, Point.ext_iff]

/-- Witness for `apply_ortho_spec`: the vertical branch fires on the
scenario input. -/
theorem apply_ortho_spec_witness :
    CanvasEventDelegate.apply_ortho true (some ⟨0, 0⟩) ⟨50, 60⟩ = ⟨0, 60⟩ :=
  (apply_ortho_spec ⟨0, 0⟩ ⟨50, 60⟩ none).2.2.2.1 (by norm_num)

/-- Unfolding `setItemPen` on a cons cell. -/
theorem setItemPen_cons (i : Nat) (p : Pen) (x : Nat × ItemData)
    (l : List (Nat × ItemData)) :
    setItemPen i p (x :: l) =
      (if x.1 = i then (x.1, { x.2 with pen := p }) else x) :: setItemPen i p l := rfl

/-- `setItemPen` is the identity when the id is absent from the store. -/
theorem setItemPen_not_mem (i : Nat) (q : Pen) (st : List (Nat × ItemData))
    (h : i ∉ st.map Prod.fst) : setItemPen i q st = st := by
  induction st with
  | nil => rfl
  | cons hd tl ih =>
    simp only [List.map_cons, List.mem_cons, not_or] at h
    rw [setItemPen_cons, if_neg (fun e => h.1 e.symm), ih h.2]

/-- Setting a pen and then setting back the pen the store held restores the
store exactly (ids are unique, `d` is the stored item). -/
theorem setItemPen_cancel (i : Nat) (d : ItemData) (q : Pen) :
    ∀ st : List (Nat × ItemData), lookupItem i st = some d →
      (st.map Prod.fst).Nodup → setItemPen i d.pen (setItemPen i q st) = st := by
  intro st
  induction st with
  | nil => intro hl _; exact absurd hl (by simp [lookupItem])
  | cons hd tl ih =>
    intro hl hnd
    rw [List.map_cons, List.nodup_cons] at hnd
    unfold lookupItem at hl
    by_cases hi : hd.1 = i
    · rw [if_pos hi] at hl
      obtain rfl : hd.2 = d := Option.some.inj hl
      have hfresh : i ∉ tl.map Prod.fst := hi ▸ hnd.1
      rw [setItemPen_cons, if_pos hi, setItemPen_cons]
      dsimp only
      rw [if_pos hi, setItemPen_not_mem _ _ _ hfresh, setItemPen_not_mem _ _ _ hfresh]
    · rw [if_neg hi] at hl
      rw [setItemPen_cons, if_neg hi, setItemPen_cons, if_neg hi, ih hl hnd.2]

/-- One full select/deselect cycle of the selection manager on item `i`. -/
def selCycle (i : Nat) (e : Ed) : Ed :=
  SelectionManager.select none (SelectionManager.select (some i) e)

/-- C9.  Starting from a deselected manager, selecting a shape and then
selecting none restores the shape's pen — and the whole editor state —
exactly, with no drift over arbitrarily many repeated cycles. -/
theorem select_deselect_restores_pen (n i : Nat) (e : Ed) (d : ItemData)
    (hcur : e.selCurrent = none) (hprev : e.selPrevPen = none)
    (hl : lookupItem i e.store = some d)
    (hnd : (e.store.map Prod.fst).Nodup) :
    (selCycle i)^[n] e = e := by
  have hfix : selCycle i e = e := by
    obtain ⟨nid, store, scene, cur, prev, us, rs⟩ := e
    simp only at hcur hprev hl hnd
    subst hcur; subst hprev
    unfold selCycle SelectionManager.select SelectionManager.clear_highlight
    dsimp only
    rw [hl]
    dsimp only
    rw [setItemPen_cancel i d (highlightPen d.pen) store hl hnd]
  exact Function.iterate_fixed hfix n

/-- A concrete editor with one committed line item (identity 5). -/
def penedItemEd : Ed :=
  { emptyEd with
      nextId := 6
      store := [(5, { kind := Kind.line, a := ⟨0, 0⟩, b := ⟨25, 0⟩, pen := lineFinalPen })]
      scene := [5] }

/-- Witness for `select_deselect_restores_pen`: two cycles on the concrete
editor leave it untouched. -/
theorem select_deselect_restores_pen_witness :
    (selCycle 5)^[2] penedItemEd = penedItemEd :=
  select_deselect_restores_pen 2 5 penedItemEd
    { kind := Kind.line, a := ⟨0, 0⟩, b := ⟨25, 0⟩, pen := lineFinalPen }
    rfl rfl rfl (by decide)

/-- C10.  Grid snapping uses Python's round-half-to-even: a coordinate
exactly halfway between two grid multiples snaps to the even multiple
(`k·25` when `k` is even, else `(k+1)·25`); concretely 12.5 snaps to 0 and
37.5 snaps to 50, not to 25. -/
theorem snap_ties_round_half_even :
    (∀ k : ℤ, CanvasEventDelegate.snap_position true ⟨(k : ℚ) * 25 + 25/2, 0⟩ =
      ⟨(if k % 2 = 0 then (k : ℚ) else (k : ℚ) + 1) * 25, 0⟩) ∧
    CanvasEventDelegate.snap_position true ⟨25/2, 0⟩ = ⟨0, 0⟩ ∧
    CanvasEventDelegate.snap_position true ⟨75/2, 0⟩ = ⟨50, 0⟩ := by
  refine ⟨?_, ?_, ?_⟩
  · intro k
    have hy : snapCoord 0 = 0 := by norm_num [snapCoord, pyRound, GRID_SIZE]
    have hdiv : ((k : ℚ) * 25 + 25/2) / (25 : ℚ) = (k : ℚ) + 1/2 := by
      field_simp
      ring
    have hfl : ⌊(k : ℚ) + 1/2⌋ = k := by
      rw [add_comm, Int.floor_add_int]
      norm_num
    have hx : snapCoord ((k : ℚ) * 25 + 25/2) =
        (if k % 2 = 0 then (k : ℚ) else (k : ℚ) + 1) * 25 := by
      unfold snapCoord GRID_SIZE pyRound
      rw [hdiv, hfl]
      rw [show ((k : ℚ) + 1/2) - ((k : ℤ) : ℚ) = 1/2 from by ring]
      rw [if_neg (lt_irrefl (1/2 : ℚ)), if_neg (lt_irrefl (1/2 : ℚ))]
      by_cases hk : k % 2 = 0
      · rw [if_pos hk, if_pos hk]
      · rw [if_neg hk, if_neg hk]
        push_cast
        ring
    show Point.mk (snapCoord ((k : ℚ) * 25 + 25/2)) (snapCoord 0) = _
    rw [hx, hy]
  · norm_num [CanvasEventDelegate.snap_position, snapCoord, pyRound, GRID_SIZE,
      Point.ext_iff]
  · norm_num [CanvasEventDelegate.snap_position, snapCoord, pyRound, GRID_SIZE,
      Point.ext_iff]
